import Mathlib

/-!
Verification of the express-mongodb-auth registration backend.

The repository consists of `src/index.js` (an Express server with a
`POST /register` route and a `GET /` route) and `src/models/User.js`
(a mongoose schema with required `name`/`email`/`password`, a unique
`email`, and a pre-save hook that bcrypt-hashes the password).

The embedding below models:
 * the bcrypt library contract (salt generation, hashing, compare) —
   bcryptjs is an external dependency, so it is modelled from its
   documented contract: a fresh salt per call, a digest string that
   embeds the salt, verification by re-hash, one-way;
 * the mongoose save pipeline: required-path validation, then the
   schema's registered pre-save hook, then the write with the
   unique-email constraint;
 * the `POST /register` handler and the startup sequence of `index.js`.
-/

namespace ExpressMongoAuth

/-! ## The bcrypt model (external library, modelled from its contract)

A digest is the string `"$2a$10$" ++ salt-field ++ "$" ++ body-field`.
The salt field is rendered as a run of `'s'` characters and the body as
a run of `'b'` characters, so that the salt can be read back off the
digest (as real bcrypt digests allow) while the body is a lossy
(many-to-one) function of the plain text, as a one-way hash must be. -/

/-- Numeric summary of a plain-text string; deliberately many-to-one
(values are reduced mod 97), as befits a one-way digest body. -/
def strNum (p : String) : Nat :=
  p.data.foldl (fun a c => (a * 31 + c.toNat) % 97) 0

/-- Length of the body field of a digest for plain text `p` and salt `s`. -/
def bodyCount (p : String) (salt : Nat) : Nat :=
  (strNum p + salt) % 97 + p.length

/-- Modelled from the spec: `bcrypt.hash(plainText, salt)` produces a
digest string embedding the salt (run of `'s'`) and a body derived from
salt plus plain text (run of `'b'`), behind the conventional `$2a$10$`
prefix. -/
def bcryptHash (p : String) (salt : Nat) : String :=
  "$2a$10$" ++ String.mk (List.replicate salt 's') ++ "$"
    ++ String.mk (List.replicate (bodyCount p salt) 'b')

/-- Modelled from the spec: `bcrypt.genSalt(rounds)` draws a fresh salt
from the entropy source, advancing it, so successive calls yield
distinct salts. -/
def bcryptGenSalt (_rounds : Nat) (rng : Nat) : Nat × Nat :=
  (rng, rng + 1)

/-- Recover the salt embedded in a digest (count of `'s'` characters). -/
def saltOf (d : String) : Nat := d.data.count 's'

/-- Modelled from the spec: bcrypt verification is compare-by-rehash
with the salt captured from the digest. -/
def bcryptCompare (p : String) (d : String) : Bool :=
  d == bcryptHash p (saltOf d)

/-! ## The User model (`src/models/User.js`)

The schema requires `name`, `email`, `password` (mongoose rejects a
missing value and, for a required `String` path, also the empty string)
and declares `email` unique.  The pre-save hook draws a salt with
`bcrypt.genSalt(10)`, hashes `this.password`, and overwrites it with
the digest before the document is written. -/

/-- A candidate document as built by `new User({name, email, password})`:
each path is present or `undefined`. -/
structure UserInput where
  name : Option String
  email : Option String
  password : Option String
deriving Repr, DecidableEq

/-- A persisted document: the three schema paths plus the store-assigned
`_id` and version key `__v`. -/
structure StoredUser where
  name : String
  email : String
  password : String
  _id : Nat
  __v : Nat
deriving Repr, DecidableEq

/-- The backing collection of User documents. -/
structure DB where
  users : List StoredUser
  nextId : Nat
deriving Repr, DecidableEq

/-- The error taxonomy of the write path. -/
inductive SaveError where
  | validation
  | duplicateKey
  | hashing
  | connectivity
deriving Repr, DecidableEq

/-- Environment of one save call: the entropy source consumed by
`bcrypt.genSalt`, whether salt/hash generation succeeds, and whether the
store connection is up. -/
structure Env where
  rng : Nat
  hashOk : Bool
  connUp : Bool
deriving Repr, DecidableEq

/-- The mongoose required-path check for a `String` path: the value must
be present and non-empty. -/
def checkRequired (o : Option String) : Option String :=
  match o with
  | some s => if s.isEmpty then none else some s
  | none => none

/-- The document produced by the pre-save hook and the insert: the
schema paths with `password` replaced by the digest, plus the
store-assigned identifier and version `0`. -/
def hashedDoc (n e p : String) (salt : Nat) (db : DB) : StoredUser :=
  { name := n, email := e, password := bcryptHash p salt,
    _id := db.nextId, __v := 0 }

/-- The mongoose `user.save()` pipeline: validate the required paths,
then run the schema's pre-save hook (`bcrypt.genSalt(10)` and
`bcrypt.hash`, overwriting `this.password` with the digest), then
perform the single-document insert, on which the unique index on
`email` rejects a duplicate.  Returns the outcome, the resulting
collection, and the advanced entropy source. -/
def save (env : Env) (input : UserInput) (db : DB) :
    Except SaveError StoredUser × DB × Nat :=
  match checkRequired input.name, checkRequired input.email,
      checkRequired input.password with
  | some n, some e, some p =>
    if env.hashOk then
      if env.connUp then
        if db.users.any (fun u => u.email == e) then
          (Except.error SaveError.duplicateKey, db, (bcryptGenSalt 10 env.rng).2)
        else
          (Except.ok (hashedDoc n e p (bcryptGenSalt 10 env.rng).1 db),
            { users := db.users ++ [hashedDoc n e p (bcryptGenSalt 10 env.rng).1 db],
              nextId := db.nextId + 1 },
            (bcryptGenSalt 10 env.rng).2)
      else
        (Except.error SaveError.connectivity, db, (bcryptGenSalt 10 env.rng).2)
    else
      (Except.error SaveError.hashing, db, env.rng)
  | _, _, _ => (Except.error SaveError.validation, db, env.rng)

/-! ## The HTTP surface (`src/index.js`)

The `express.json()` middleware hands the `/register` handler a parsed
JSON object (an empty body parses to the empty object; a non-object
body is either rejected by the strict JSON parser before the handler
runs, or is an array, on which the three property reads yield
`undefined`).  The handler reads exactly `data.name`, `data.email`,
`data.password`, builds a `User`, awaits `save()`, and answers
`res.json(savedUser)` on success or
`res.status(500).json({error: 'Failed to save user'})` on any caught
error. -/

/-- A request body as seen by the handler: the three recognised
properties, each possibly absent, plus whatever additional properties
the client sent. -/
structure ReqBody where
  name : Option String
  email : Option String
  password : Option String
  extra : List (String × String)
deriving Repr, DecidableEq

/-- A response body: either the saved user serialised as JSON, or the
fixed error object. -/
inductive RespBody where
  | userJson (u : StoredUser)
  | errorJson (msg : String)
deriving Repr, DecidableEq

/-- An HTTP response: status code and JSON body. -/
structure HttpResponse where
  status : Nat
  body : RespBody
deriving Repr, DecidableEq

/-- The candidate document the handler builds: exactly the `name`,
`email`, `password` properties of the body, nothing else. -/
def inputOf (req : ReqBody) : UserInput :=
  { name := req.name, email := req.email, password := req.password }

/-- The `POST /register` handler. -/
def registerHandler (env : Env) (req : ReqBody) (db : DB) :
    HttpResponse × DB × Nat :=
  match save env (inputOf req) db with
  | (Except.ok saved, db', rng') =>
    ({ status := 200, body := RespBody.userJson saved }, db', rng')
  | (Except.error _, db', rng') =>
    ({ status := 500, body := RespBody.errorJson "Failed to save user" },
      db', rng')

/-! ## Startup (`src/index.js` top level)

Startup fires `mongoose.connect(atlasUrl, ...)` with `.then` logging
success and `.catch` logging the error; nothing rethrows and nothing
calls `process.exit`.  Then `app.listen(port, ...)` runs
unconditionally. -/

/-- Observable startup actions of `index.js`. -/
inductive StartupEvent where
  | connectAttempt
  | logConnected
  | logConnError
  | listen (port : Nat)
  | processExit
deriving Repr, DecidableEq

/-- The sequence of observable startup events, given whether the
connection attempt succeeds. -/
def startupTrace (connOk : Bool) : List StartupEvent :=
  [StartupEvent.connectAttempt]
    ++ (if connOk then [StartupEvent.logConnected]
        else [StartupEvent.logConnError])
    ++ [StartupEvent.listen 3000]

/-! ## Concrete data used by the witnesses -/

/-- A healthy environment with entropy source at 0. -/
def envA : Env := { rng := 0, hashOk := true, connUp := true }

/-- A healthy environment with entropy source at 1. -/
def envB : Env := { rng := 1, hashOk := true, connUp := true }

/-- The registration input of the spec's end-to-end scenario. -/
def inputA : UserInput :=
  { name := some "Jennifer", email := some "jen@example.com",
    password := some "secret123" }

/-- The request body of the spec's end-to-end scenario. -/
def reqA : ReqBody :=
  { name := some "Jennifer", email := some "jen@example.com",
    password := some "secret123", extra := [] }

/-- The empty collection. -/
def dbEmpty : DB := { users := [], nextId := 0 }

/-- The stored user produced by registering `inputA` against `dbEmpty`
with environment `envA`. -/
def userA : StoredUser :=
  { name := "Jennifer", email := "jen@example.com",
    password := bcryptHash "secret123" 0, _id := 0, __v := 0 }

/-- The collection after that registration. -/
def dbA : DB := { users := [userA], nextId := 1 }

/-! ## Helper lemmas -/

theorem data_append (a b : String) : (a ++ b).data = a.data ++ b.data := by
  cases a; cases b; rfl

theorem saltOf_bcryptHash (p : String) (s : Nat) :
    saltOf (bcryptHash p s) = s := by
  simp [saltOf, bcryptHash, data_append, List.count_append,
    List.count_replicate]

theorem bcryptCompare_bcryptHash (p : String) (s : Nat) :
    bcryptCompare p (bcryptHash p s) = true := by
  simp [bcryptCompare, saltOf_bcryptHash]

theorem length_bcryptHash (p : String) (s : Nat) :
    (bcryptHash p s).length = 8 + s + (strNum p + s) % 97 + p.length := by
  have h7 : ("$2a$10$" : String).length = 7 := rfl
  have h1 : ("$" : String).length = 1 := rfl
  simp [bcryptHash, bodyCount, String.length_append, String.length_mk,
    List.length_replicate, h7, h1]
  omega

theorem bcryptHash_ne_plain (p : String) (s : Nat) : bcryptHash p s ≠ p := by
  intro h
  have hl : (bcryptHash p s).length = p.length := by rw [h]
  rw [length_bcryptHash] at hl
  omega

theorem bcryptHash_injective_salt (p : String) (s₁ s₂ : Nat)
    (h : bcryptHash p s₁ = bcryptHash p s₂) : s₁ = s₂ := by
  have := congrArg saltOf h
  rwa [saltOf_bcryptHash, saltOf_bcryptHash] at this

/-- The model bcrypt hash is not reversible: no function recovers the
plain text from the digest, because distinct plain texts can share a
digest (the one-character strings with character codes 0 and 97 agree
in `strNum` and in length, so they collide under any salt). -/
theorem bcryptHash_not_reversible :
    ¬ ∃ inv : String → String, ∀ p s, inv (bcryptHash p s) = p := by
  intro ⟨inv, hinv⟩
  have h1 := hinv (String.mk [Char.ofNat 0]) 0
  have h2 := hinv (String.mk ['a']) 0
  have hcoll : bcryptHash (String.mk [Char.ofNat 0]) 0
      = bcryptHash (String.mk ['a']) 0 := by decide
  rw [hcoll, h2] at h1
  exact absurd h1 (by decide)

theorem checkRequired_eq_some (o : Option String) (s : String)
    (h : checkRequired o = some s) : o = some s := by
  cases o with
  | none => simp [checkRequired] at h
  | some t =>
    unfold checkRequired at h
    by_cases ht : t.isEmpty
    · simp [ht] at h
    · simp [ht] at h
      rw [h]

/-- Inversion on a successful save: every successful save passed
validation, ran the hook, found the connection up and the email fresh,
and appended exactly the hook-hashed document. -/
theorem save_ok_inv (env : Env) (input : UserInput) (db : DB)
    (u : StoredUser) (db' : DB) (r : Nat)
    (h : save env input db = (Except.ok u, db', r)) :
    ∃ n e p, checkRequired input.name = some n ∧
      checkRequired input.email = some e ∧
      checkRequired input.password = some p ∧
      env.hashOk = true ∧ env.connUp = true ∧
      db.users.any (fun v => v.email == e) = false ∧
      u = hashedDoc n e p env.rng db ∧
      db' = { users := db.users ++ [u], nextId := db.nextId + 1 } ∧
      r = env.rng + 1 := by
  unfold save at h
  split at h
  case _ n e p hn he hp =>
    by_cases hh : env.hashOk
    · by_cases hc : env.connUp
      · by_cases hd : db.users.any (fun v => v.email == e)
        · simp [hh, hc, hd] at h
        · simp [hh, hc, hd, bcryptGenSalt] at h
          refine ⟨n, e, p, hn, he, hp, hh, hc, by simp [hd], ?_, ?_, ?_⟩
          · exact h.1.symm
          · cases h.2.1
            rw [h.1]
          · exact h.2.2.symm
      · simp [hh, hc] at h
    · simp [hh] at h
  case _ =>
    simp at h

/-- Forward evaluation of a successful save. -/
theorem save_ok_of (env : Env) (input : UserInput) (db : DB)
    (n e p : String)
    (hn : checkRequired input.name = some n)
    (he : checkRequired input.email = some e)
    (hp : checkRequired input.password = some p)
    (hh : env.hashOk = true) (hc : env.connUp = true)
    (hd : db.users.any (fun v => v.email == e) = false) :
    save env input db =
      (Except.ok (hashedDoc n e p env.rng db),
        { users := db.users ++ [hashedDoc n e p env.rng db],
          nextId := db.nextId + 1 },
        env.rng + 1) := by
  unfold save
  rw [hn, he, hp]
  simp [hh, hc, hd, bcryptGenSalt]

/-! ## The claims -/

/-- Claim C1: for every User record persisted by a successful
registration, the stored password field is never the plain-text value:
it is the bcrypt digest of the input plain text, produced by exactly one
application of the hash before the record is written, and the digest
transformation is not reversible. -/
theorem c1_stored_password_never_plain :
    (∀ env input db u db' r,
      save env input db = (Except.ok u, db', r) →
      ∃ p, input.password = some p ∧
        u.password = bcryptHash p env.rng ∧
        u.password ≠ p ∧
        db'.users = db.users ++ [u]) ∧
    ¬ ∃ inv : String → String, ∀ p s, inv (bcryptHash p s) = p := by
  constructor
  · intro env input db u db' r h
    obtain ⟨n, e, p, hn, he, hp, hh, hc, hd, hu, hdb, hr⟩ :=
      save_ok_inv env input db u db' r h
    refine ⟨p, checkRequired_eq_some _ _ hp, ?_, ?_, ?_⟩
    · rw [hu]; rfl
    · rw [hu]; exact bcryptHash_ne_plain p env.rng
    · rw [hdb]
  · exact bcryptHash_not_reversible

theorem c1_witness :
    ∃ p, inputA.password = some p ∧
      userA.password = bcryptHash p envA.rng ∧
      userA.password ≠ p ∧
      dbA.users = dbEmpty.users ++ [userA] :=
  c1_stored_password_never_plain.1 envA inputA dbEmpty userA dbA 1 (by rfl)

/-- Claim C2: for all valid input with a fresh email, `create` returns a
stored user whose name and email equal the input's and whose password
field differs from the input plain text. -/
theorem c2_create_returns_matching_user (env : Env) (db : DB)
    (n e p : String)
    (hn : n.isEmpty = false) (he : e.isEmpty = false)
    (hp : p.isEmpty = false)
    (hh : env.hashOk = true) (hc : env.connUp = true)
    (hfresh : db.users.any (fun v => v.email == e) = false) :
    ∃ u db' r,
      save env { name := some n, email := some e, password := some p } db
        = (Except.ok u, db', r) ∧
      u.name = n ∧ u.email = e ∧ u.password ≠ p := by
  refine ⟨hashedDoc n e p env.rng db,
    { users := db.users ++ [hashedDoc n e p env.rng db],
      nextId := db.nextId + 1 },
    env.rng + 1, ?_, rfl, rfl, bcryptHash_ne_plain p env.rng⟩
  exact save_ok_of env _ db n e p (by simp [checkRequired, hn])
    (by simp [checkRequired, he]) (by simp [checkRequired, hp]) hh hc hfresh

theorem c2_witness :
    ∃ u db' r,
      save envA
        { name := some "Jennifer", email := some "jen@example.com",
          password := some "secret123" } dbEmpty
        = (Except.ok u, db', r) ∧
      u.name = "Jennifer" ∧ u.email = "jen@example.com" ∧
      u.password ≠ "secret123" :=
  c2_create_returns_matching_user envA dbEmpty "Jennifer" "jen@example.com"
    "secret123" rfl rfl rfl rfl rfl rfl

/-- Claim C3: a create call in which any of the required paths `name`,
`email`, `password` is absent fails with a `ValidationError` and the
collection is left unchanged — no write is attempted. -/
theorem c3_missing_field_validation_error (env : Env) (input : UserInput)
    (db : DB)
    (h : input.name = none ∨ input.email = none ∨ input.password = none) :
    save env input db = (Except.error SaveError.validation, db, env.rng) := by
  unfold save
  split
  · rename_i n e p hn he hp
    exfalso
    rcases h with h | h | h
    · rw [h] at hn; simp [checkRequired] at hn
    · rw [h] at he; simp [checkRequired] at he
    · rw [h] at hp; simp [checkRequired] at hp
  all_goals rfl

theorem c3_witness :
    save envA
      { name := some "Jennifer", email := some "jen@example.com",
        password := none } dbEmpty
      = (Except.error SaveError.validation, dbEmpty, 0) :=
  c3_missing_field_validation_error envA _ dbEmpty (Or.inr (Or.inr rfl))

/-- Claim C4: registering the same email twice lets at most one call
succeed: after a successful save, a second well-formed save with the
same email fails with a `DuplicateKeyError`, the collection is left
exactly as it was, and the first record is still present in it. -/
theorem c4_duplicate_email_rejected (env₁ env₂ : Env) (db db₁ : DB)
    (i₁ i₂ : UserInput) (u : StoredUser) (r₁ : Nat)
    (h1 : save env₁ i₁ db = (Except.ok u, db₁, r₁))
    (hemail : i₂.email = i₁.email)
    (hh : env₂.hashOk = true) (hc : env₂.connUp = true)
    (hn : ∃ n, checkRequired i₂.name = some n)
    (hp : ∃ p, checkRequired i₂.password = some p) :
    save env₂ i₂ db₁
      = (Except.error SaveError.duplicateKey, db₁, env₂.rng + 1) ∧
    u ∈ db₁.users := by
  obtain ⟨n₁, e, p₁, hn₁, he₁, hp₁, _, _, _, hu, hdb, _⟩ :=
    save_ok_inv _ _ _ _ _ _ h1
  obtain ⟨n₂, hn₂⟩ := hn
  obtain ⟨p₂, hp₂⟩ := hp
  have he₂ : checkRequired i₂.email = some e := by rw [hemail, he₁]
  have hmem : u ∈ db₁.users := by
    rw [hdb]
    simp
  have hue : u.email = e := by rw [hu]; rfl
  have hdup : db₁.users.any (fun v => v.email == e) = true := by
    rw [List.any_eq_true]
    exact ⟨u, hmem, by simp [hue]⟩
  refine ⟨?_, hmem⟩
  unfold save
  rw [hn₂, he₂, hp₂]
  simp [hh, hc, hdup, bcryptGenSalt]

theorem c4_witness :
    save envB
      { name := some "Someone", email := some "jen@example.com",
        password := some "hunter2" } dbA
      = (Except.error SaveError.duplicateKey, dbA, 2) ∧
    userA ∈ dbA.users :=
  c4_duplicate_email_rejected envA envB dbEmpty dbA inputA
    { name := some "Someone", email := some "jen@example.com",
      password := some "hunter2" }
    userA 1 (by rfl) rfl rfl rfl ⟨"Someone", rfl⟩ ⟨"hunter2", rfl⟩

/-- Claim C5: every failing registration, whatever the error kind
(validation, duplicate key, hashing, connectivity), is answered with the
same status 500 and the same fixed body, so the error kind is not
distinguishable from the client-facing response. -/
theorem c5_uniform_error_response (env : Env) (req : ReqBody) (db : DB)
    (err : SaveError) (db' : DB) (r : Nat)
    (h : save env (inputOf req) db = (Except.error err, db', r)) :
    registerHandler env req db
      = ({ status := 500, body := RespBody.errorJson "Failed to save user" },
          db', r) := by
  unfold registerHandler
  rw [h]

theorem c5_witness :
    registerHandler envA
      { name := some "Jennifer", email := some "jen@example.com",
        password := none, extra := [] } dbEmpty
      = ({ status := 500, body := RespBody.errorJson "Failed to save user" },
          dbEmpty, 0) :=
  c5_uniform_error_response envA _ dbEmpty SaveError.validation dbEmpty 0
    (by rfl)

/-- Claim C6: hashing is not idempotent across calls — two successive
hashing runs over the identical plain text draw distinct salts and yield
distinct digest strings, while each digest still verifies against that
plain text under the scheme's compare operation. -/
theorem c6_hashing_not_idempotent (p : String) (rng : Nat) :
    bcryptHash p (bcryptGenSalt 10 rng).1
      ≠ bcryptHash p (bcryptGenSalt 10 (bcryptGenSalt 10 rng).2).1 ∧
    bcryptCompare p (bcryptHash p (bcryptGenSalt 10 rng).1) = true ∧
    bcryptCompare p
      (bcryptHash p (bcryptGenSalt 10 (bcryptGenSalt 10 rng).2).1) = true := by
  refine ⟨?_, bcryptCompare_bcryptHash p _, bcryptCompare_bcryptHash p _⟩
  intro h
  have h2 : rng = rng + 1 :=
    bcryptHash_injective_salt p rng (rng + 1) h
  omega

/-- Claim C7: every successful `POST /register` is answered with status
200 and the full stored user as JSON body, including the store-assigned
identifier and the hashed password field. -/
theorem c7_success_returns_stored_user (env : Env) (req : ReqBody)
    (db : DB) (u : StoredUser) (db' : DB) (r : Nat)
    (h : save env (inputOf req) db = (Except.ok u, db', r)) :
    registerHandler env req db
      = ({ status := 200, body := RespBody.userJson u }, db', r) ∧
    u._id = db.nextId ∧
    ∃ p, req.password = some p ∧ u.password = bcryptHash p env.rng := by
  obtain ⟨n, e, p, hn, he, hp, _, _, _, hu, _, _⟩ :=
    save_ok_inv _ _ _ _ _ _ h
  refine ⟨?_, ?_, p, ?_, ?_⟩
  · unfold registerHandler
    rw [h]
  · rw [hu]; rfl
  · exact checkRequired_eq_some _ _ hp
  · rw [hu]; rfl

theorem c7_witness :
    registerHandler envA reqA dbEmpty
      = ({ status := 200, body := RespBody.userJson userA }, dbA, 1) ∧
    userA._id = dbEmpty.nextId ∧
    ∃ p, reqA.password = some p ∧ userA.password = bcryptHash p envA.rng :=
  c7_success_returns_stored_user envA reqA dbEmpty userA dbA 1 (by rfl)

/-- Claim C8: whether or not the store connection attempt succeeds at
startup, the process does not exit and the server still starts
listening; a failed attempt is logged. -/
theorem c8_listen_despite_connect_failure (connOk : Bool) :
    StartupEvent.listen 3000 ∈ startupTrace connOk ∧
    StartupEvent.processExit ∉ startupTrace connOk ∧
    (connOk = false → StartupEvent.logConnError ∈ startupTrace connOk) := by
  cases connOk
  · exact ⟨by decide, by decide, fun _ => by decide⟩
  · exact ⟨by decide, by decide, fun h => absurd h (by decide)⟩

theorem c8_witness :
    StartupEvent.listen 3000 ∈ startupTrace false ∧
    StartupEvent.processExit ∉ startupTrace false ∧
    StartupEvent.logConnError ∈ startupTrace false :=
  ⟨(c8_listen_despite_connect_failure false).1,
    (c8_listen_despite_connect_failure false).2.1,
    (c8_listen_despite_connect_failure false).2.2 rfl⟩

/-- Claim C9: the handler is total and sends exactly one of two
responses for every request body that reaches it: 200 with the saved
user as JSON, or 500 with the fixed error body — never anything else. -/
theorem c9_handler_exactly_two_outcomes (env : Env) (req : ReqBody)
    (db : DB) :
    ((registerHandler env req db).1.status = 200 ∧
      ∃ u, (registerHandler env req db).1.body = RespBody.userJson u) ∨
    ((registerHandler env req db).1.status = 500 ∧
      (registerHandler env req db).1.body
        = RespBody.errorJson "Failed to save user") := by
  rcases h : save env (inputOf req) db with ⟨e | u, db', r⟩
  · right
    unfold registerHandler
    rw [h]
    exact ⟨rfl, rfl⟩
  · left
    unfold registerHandler
    rw [h]
    exact ⟨rfl, u, rfl⟩

/-- Claim C10: only the `name`, `email`, `password` properties of the
request body influence the outcome; any additional property is
discarded and affects neither the response nor the collection. -/
theorem c10_extra_properties_ignored (env : Env) (db : DB)
    (nameP emailP passwordP : Option String)
    (extra₁ extra₂ : List (String × String)) :
    registerHandler env
      { name := nameP, email := emailP, password := passwordP,
        extra := extra₁ } db
      = registerHandler env
        { name := nameP, email := emailP, password := passwordP,
          extra := extra₂ } db := rfl

end ExpressMongoAuth
